import Mathlib

/-!
Verification of the Bandcamp provider (pljones/mamp-bandcamp).

Shallow embedding of the provider's source files:
  src/music_assistant/providers/Bandcamp/models.py
  src/music_assistant/providers/Bandcamp/api.py
  src/music_assistant/providers/Bandcamp/helpers.py

Modelling conventions:
  * Python `dict.get` on a JSON object is modelled by association-list lookup
    returning `Option`.
  * Python truthiness of a string value is `s != ""`; of an optional int it is
    "present and nonzero".
  * Raised exceptions are modelled by `Except` errors (for functions whose
    callers observe the exception) or by collapsing to the value the enclosing
    `try/except` produces (for functions that catch everything themselves).
  * Network transport is modelled by passing the response(s) a run would
    receive as explicit inputs; the HTML parsing done by BeautifulSoup is
    modelled by records holding exactly the node texts/attributes the source
    reads, while the regex extraction over raw page text (helpers.py) is
    modelled character-by-character.
  * Python floats parsed from JSON numbers are modelled as exact rationals.
-/

namespace Bandcamp

/-- Python `int(q)` on a rational: truncation toward zero
(`Int.tdiv` is truncating division). -/
def pyInt (q : ℚ) : ℤ := Int.tdiv q.num (Int.ofNat q.den)

/-- `dict.get(k)` over a JSON object with string values, modelled as an
association list: first binding wins. -/
def dGet (m : List (String × String)) (k : String) : Option String :=
  (m.find? (fun p => p.1 = k)).map (fun p => p.2)

/-- Python truthiness of an optional string (`if x:` where `x` is `None` or a
`str`): present and nonempty. -/
def optTruthy : Option String → Bool
  | none => false
  | some s => s != ""

/-- Python truthiness of an optional int (`if x:` where `x` is `None` or an
`int`): present and nonzero.  Used for `fan_id` and `last_token` checks. -/
def intTruthy : Option Int → Bool
  | none => false
  | some v => v != 0

/-- Split a character list at every occurrence of `c`, keeping empty
segments, like Python `str.split` with a one-character separator.  The
result is always nonempty. -/
def splitOnChar (c : Char) : List Char → List (List Char)
  | [] => [[]]
  | x :: xs =>
      match splitOnChar c xs with
      | [] => [[]]
      | h :: t => if x = c then [] :: h :: t else (x :: h) :: t

/-- Python `s.split("/")`. -/
def pySplitSlash (s : String) : List String :=
  (splitOnChar '/' s.toList).map (fun l => String.mk l)

/-- Python `c in s` for a single character. -/
def pyContains (s : String) (c : Char) : Bool := s.toList.contains c

/-- Python `s.replace(a, b)` for one-character `a` and `b`. -/
def pyReplaceChar (a b : Char) (s : String) : String :=
  String.mk (s.toList.map (fun ch => if ch = a then b else ch))

/-- Python `s.lower()` (ASCII case folding, which is all the scraped keys
use). -/
def pyLower (s : String) : String := String.mk (s.toList.map Char.toLower)

/-- Python `s.split("/")[-1]`: last segment of a `/`-separated string.
The split is never empty, so the default is never used. -/
def lastSegment (s : String) : String := (pySplitSlash s).getLastD ""

/-! ## models.py: `BandcampUserIdentity` (lines 27-50) -/

/-- `BandcampUserIdentity` (models.py lines 27-35).  `fan_id` is an optional
int, the remaining identity fields optional strings. -/
structure UserIdentity where
  fan_id : Option Int
  username : Option String
  name : Option String
  image_id : Option String
  url : Option String
  is_authenticated : Bool
deriving DecidableEq

/-- The dataclass defaults: all fields `None`, `is_authenticated = False`. -/
def UserIdentity.initial : UserIdentity :=
  ⟨none, none, none, none, none, false⟩

/-- The payload `get_authenticated_user_data` / `submit_form` hand to
`BandcampUserIdentity.from_api_data`: a JSON object; we record the keys
`from_api_data` reads. -/
structure UserData where
  fan_id : Option Int
  username : Option String
  name : Option String
  image_id : Option String
  url : Option String
deriving DecidableEq

/-- `BandcampUserIdentity.from_api_data` (models.py lines 37-50): falsy data
gives the empty identity; otherwise every field is copied and
`is_authenticated = bool(data.get("fan_id"))`. -/
def identityFromApiData (d : Option UserData) : UserIdentity :=
  match d with
  | none => UserIdentity.initial
  | some u => ⟨u.fan_id, u.username, u.name, u.image_id, u.url, intTruthy u.fan_id⟩

/-! ## api.py: `authenticate_with_cookies` (lines 66-89)

The attempt's interaction with the environment is modelled by the outcome the
helper calls produce: an exception before the user data is verified
(`start_session` / `set_cookie` / `load_cookies` /
`get_authenticated_user_data` raising), or a verification result `d` (with
`none` for falsy user data) together with whether the subsequent
`save_cookies` call raises. -/

inductive CookieAuthOutcome where
  /-- some step before line 79's truthiness check raised -/
  | raisedBeforeVerify : CookieAuthOutcome
  /-- `get_authenticated_user_data` returned; `none` models falsy user data.
  `saveRaises` records whether `save_cookies` (line 81) raises; it is only
  reached when the data was truthy. -/
  | verifyReturned (d : Option UserData) (saveRaises : Bool) : CookieAuthOutcome
deriving DecidableEq

/-- `BandcampApiClient.authenticate_with_cookies` (api.py lines 66-89) as a
state transition on the stored `user_identity`: returns the boolean result
and the identity after the call.  Note the source assigns
`self.user_identity` (line 80) *before* `save_cookies` (line 81); if saving
raises, the `except` clause returns `False` with the identity already
replaced. -/
def authenticate_with_cookies (ident : UserIdentity) (o : CookieAuthOutcome) :
    Bool × UserIdentity :=
  match o with
  | .raisedBeforeVerify => (false, ident)
  | .verifyReturned none _ => (false, ident)
  | .verifyReturned (some d) saveRaises =>
      let ident' := identityFromApiData (some d)
      if saveRaises then (false, ident') else (true, ident')

/-! ## api.py: the pagination loops (lines 126-256)

`get_collection_items`, `get_wishlist_items` and `get_followed_artists` share
one loop shape; they differ only in the endpoint URL and the JSON key holding
the batch (`items` vs `followeers`).  A run's server behaviour is modelled as
the list of responses the successive `session.post` calls produce; items are
kept abstract.  Running past the end of the list models a request that raises
(no response), like `PageResp.err`. -/

/-- One page request's outcome: a transport-layer exception, or an HTTP
response with a status, the decoded batch (`data.get("items", [])`), and the
decoded `last_token` field (`none` when absent). -/
inductive PageResp (α : Type) where
  | err : PageResp α
  | page (status : Nat) (items : List α) (lastToken : Option Int) : PageResp α
deriving DecidableEq

/-- The `try: while True: ...` body shared by the three listing methods
(api.py lines 139-164).  Returns the loop's outcome (`Except.error` when an
exception escapes to the `except` clause) together with the number of page
requests issued.  Mirrors, in order: the `resp.status != 200` break, the
empty-batch break, `items.extend(batch)`, the `len(batch) < 100` break, and
the `if not offset` break on a falsy `last_token`. -/
def collectLoop {α : Type} : List (PageResp α) → Except Unit (List α) × Nat
  | [] => (.error (), 1)
  | .err :: _ => (.error (), 1)
  | .page status batch tok :: rest =>
      if status ≠ 200 then (.ok [], 1)
      else if batch.isEmpty then (.ok [], 1)
      else if batch.length < 100 then (.ok batch, 1)
      else if intTruthy tok then
        let r := collectLoop rest
        ((r.1.map (fun more => batch ++ more)), r.2 + 1)
      else (.ok batch, 1)

/-- `BandcampApiClient.get_collection_items` (api.py lines 126-168): guard on
`is_authenticated` and a truthy `fan_id`, then the pagination loop; an
exception anywhere in the loop is caught and turns the whole result into
`[]`.  Result is paired with the number of page requests issued. -/
def get_collection_items {α : Type} (ident : UserIdentity)
    (resps : List (PageResp α)) : List α × Nat :=
  if !ident.is_authenticated then ([], 0)
  else if !intTruthy ident.fan_id then ([], 0)
  else
    match collectLoop resps with
    | (.ok items, n) => (items, n)
    | (.error _, n) => ([], n)

/-- `BandcampApiClient.get_wishlist_items` (api.py lines 170-212): identical
to `get_collection_items` except for the endpoint URL. -/
def get_wishlist_items {α : Type} (ident : UserIdentity)
    (resps : List (PageResp α)) : List α × Nat :=
  if !ident.is_authenticated then ([], 0)
  else if !intTruthy ident.fan_id then ([], 0)
  else
    match collectLoop resps with
    | (.ok items, n) => (items, n)
    | (.error _, n) => ([], n)

/-- `BandcampApiClient.get_followed_artists` (api.py lines 214-256): identical
loop, reading the `followeers` key instead of `items`. -/
def get_followed_artists {α : Type} (ident : UserIdentity)
    (resps : List (PageResp α)) : List α × Nat :=
  if !ident.is_authenticated then ([], 0)
  else if !intTruthy ident.fan_id then ([], 0)
  else
    match collectLoop resps with
    | (.ok items, n) => (items, n)
    | (.error _, n) => ([], n)

/-! ## A model of JSON values and of `json.loads`

helpers.py feeds regex-captured page fragments to `json.loads`; to keep the
pipeline executable we implement a small recursive-descent JSON parser.
Numbers are parsed exactly, as rationals. -/

/-- A parsed JSON value. -/
inductive JVal where
  | null : JVal
  | bool (b : Bool) : JVal
  | num (q : ℚ) : JVal
  | str (s : String) : JVal
  | arr (elems : List JVal) : JVal
  | obj (fields : List (String × JVal)) : JVal

/-- JSON object lookup (`d[k]` / `d.get(k)`): first binding wins. -/
def jGet (fields : List (String × JVal)) (k : String) : Option JVal :=
  (fields.find? (fun p => p.1 = k)).map (fun p => p.2)

/-- Drop leading whitespace characters. -/
def dropWs : List Char → List Char
  | [] => []
  | c :: cs => if c.isWhitespace then dropWs cs else c :: cs

/-- Value of a hex digit, if the character is one. -/
def hexDigit (c : Char) : Option Nat :=
  if '0' ≤ c ∧ c ≤ '9' then some (c.toNat - 48)
  else if 'a' ≤ c ∧ c ≤ 'f' then some (c.toNat - 87)
  else if 'A' ≤ c ∧ c ≤ 'F' then some (c.toNat - 55)
  else none

/-- Single-character JSON string escapes. -/
def escChar (c : Char) : Option Char :=
  if c = '"' then some '"'
  else if c = '\\' then some '\\'
  else if c = '/' then some '/'
  else if c = 'b' then some '\x08'
  else if c = 'f' then some '\x0c'
  else if c = 'n' then some '\n'
  else if c = 'r' then some '\r'
  else if c = 't' then some '\t'
  else none

/-- Parse the body of a JSON string after the opening quote; returns the
decoded characters and the input after the closing quote. -/
def parseStrBody : List Char → Option (List Char × List Char)
  | [] => none
  | '"' :: rest => some ([], rest)
  | '\\' :: 'u' :: a :: b :: c :: d :: rest => do
      let ha ← hexDigit a
      let hb ← hexDigit b
      let hc ← hexDigit c
      let hd ← hexDigit d
      let p ← parseStrBody rest
      some (Char.ofNat (((ha * 16 + hb) * 16 + hc) * 16 + hd) :: p.1, p.2)
  | '\\' :: e :: rest => do
      let c ← escChar e
      let p ← parseStrBody rest
      some (c :: p.1, p.2)
  | c :: rest => do
      let p ← parseStrBody rest
      some (c :: p.1, p.2)

/-- Split off a maximal run of decimal digits. -/
def takeDigits : List Char → List Char × List Char
  | [] => ([], [])
  | c :: cs =>
      if c.isDigit then
        let p := takeDigits cs
        (c :: p.1, p.2)
      else ([], c :: cs)

/-- Numeric value of a digit run. -/
def digitsToNat (ds : List Char) : Nat :=
  ds.foldl (fun n c => n * 10 + (c.toNat - 48)) 0

/-- Parse a JSON number (integer part, optional fraction, optional exponent)
into an exact rational. -/
def parseNumber (cs : List Char) : Option (ℚ × List Char) :=
  let (neg, cs₁) := match cs with
    | '-' :: t => (true, t)
    | _ => (false, cs)
  let (ints, cs₂) := takeDigits cs₁
  if ints.isEmpty then none
  else
    let (fracs, cs₃) := match cs₂ with
      | '.' :: t => takeDigits t
      | _ => ([], cs₂)
    let (expo, cs₄) : Option Int × List Char := match cs₃ with
      | 'e' :: '-' :: t =>
          let (es, r) := takeDigits t
          (if es.isEmpty then none else some (-(digitsToNat es : Int)), r)
      | 'E' :: '-' :: t =>
          let (es, r) := takeDigits t
          (if es.isEmpty then none else some (-(digitsToNat es : Int)), r)
      | 'e' :: '+' :: t =>
          let (es, r) := takeDigits t
          (if es.isEmpty then none else some (digitsToNat es : Int), r)
      | 'E' :: '+' :: t =>
          let (es, r) := takeDigits t
          (if es.isEmpty then none else some (digitsToNat es : Int), r)
      | 'e' :: t =>
          let (es, r) := takeDigits t
          (if es.isEmpty then none else some (digitsToNat es : Int), r)
      | 'E' :: t =>
          let (es, r) := takeDigits t
          (if es.isEmpty then none else some (digitsToNat es : Int), r)
      | _ => (some 0, cs₃)
    match expo with
    | none => none
    | some e =>
        let mant : ℚ := (digitsToNat (ints ++ fracs) : ℚ) / ((10 : ℚ) ^ fracs.length)
        let signed : ℚ := if neg then -mant else mant
        let scaled : ℚ :=
          if 0 ≤ e then signed * (10 : ℚ) ^ e.toNat else signed / (10 : ℚ) ^ e.natAbs
        some (scaled, cs₄)

mutual

/-- Parse one JSON value; `fuel` bounds recursion depth (any input of length
`n` is fully handled with fuel `n + 1`). -/
def parseVal : Nat → List Char → Option (JVal × List Char)
  | 0, _ => none
  | Nat.succ fuel, cs =>
      match dropWs cs with
      | 'n' :: 'u' :: 'l' :: 'l' :: rest => some (.null, rest)
      | 't' :: 'r' :: 'u' :: 'e' :: rest => some (.bool true, rest)
      | 'f' :: 'a' :: 'l' :: 's' :: 'e' :: rest => some (.bool false, rest)
      | '"' :: rest => do
          let p ← parseStrBody rest
          some (.str (String.mk p.1), p.2)
      | '[' :: rest => do
          let p ← parseArrItems fuel rest
          some (.arr p.1, p.2)
      | '{' :: rest => do
          let p ← parseObjItems fuel rest
          some (.obj p.1, p.2)
      | cs' => do
          let p ← parseNumber cs'
          some (.num p.1, p.2)

/-- Parse array elements after `[`, up to and including the closing `]`. -/
def parseArrItems : Nat → List Char → Option (List JVal × List Char)
  | 0, _ => none
  | Nat.succ fuel, cs =>
      match dropWs cs with
      | ']' :: rest => some ([], rest)
      | cs' => do
          let p ← parseVal fuel cs'
          match dropWs p.2 with
          | ',' :: rest => do
              let q ← parseArrItems fuel rest
              some (p.1 :: q.1, q.2)
          | ']' :: rest => some ([p.1], rest)
          | _ => none

/-- Parse object members after `\x7b`, up to and including the closing
`\x7d`. -/
def parseObjItems : Nat → List Char → Option (List (String × JVal) × List Char)
  | 0, _ => none
  | Nat.succ fuel, cs =>
      match dropWs cs with
      | '}' :: rest => some ([], rest)
      | '"' :: cs' => do
          let pk ← parseStrBody cs'
          match dropWs pk.2 with
          | ':' :: cs'' => do
              let pv ← parseVal fuel cs''
              match dropWs pv.2 with
              | ',' :: rest => do
                  let q ← parseObjItems fuel rest
                  some ((String.mk pk.1, pv.1) :: q.1, q.2)
              | '}' :: rest => some ([(String.mk pk.1, pv.1)], rest)
              | _ => none
          | _ => none
      | _ => none

end

/-- `json.loads`, modelled: parse one value and require only trailing
whitespace after it; `none` models a raised `json.JSONDecodeError`. -/
def jsonParse (s : String) : Option JVal :=
  match parseVal (s.length + 1) s.toList with
  | some (v, rest) => if (dropWs rest).isEmpty then some v else none
  | none => none

/-! ## helpers.py: the trackinfo regex

`get_album` (line 72) and `get_stream` (line 99) both run
`re.search(r"trackinfo\s*:\s*(\[\x7b.*?\x7d\])", soup.text, re.DOTALL)`.
We model `re.search` for this fixed pattern over the searched text: leftmost
start position wins; at a start position the literal `trackinfo` is followed
by optional whitespace, `:`, optional whitespace, then the captured group —
`[`, `\x7b`, a shortest (non-greedy, DOTALL) run of arbitrary characters, and
the earliest following `\x7d]`. -/

/-- Split the input at the first occurrence of the two-character closer
`\x7d]`: returns the characters before it and the characters after it. -/
def splitAtCloseBr : List Char → Option (List Char × List Char)
  | [] => none
  | '}' :: ']' :: rest => some ([], rest)
  | c :: cs => (splitAtCloseBr cs).map (fun p => (c :: p.1, p.2))

/-- Try to complete the pattern right after the literal `trackinfo`:
`\s*` then `:` then `\s*` then the captured `\[\x7b.*?\x7d\]` group. -/
def matchAfterMarker (cs : List Char) : Option (List Char) :=
  match dropWs cs with
  | ':' :: cs₂ =>
      match dropWs cs₂ with
      | '[' :: '{' :: cs₃ =>
          (splitAtCloseBr cs₃).map (fun p => '[' :: '{' :: (p.1 ++ ['}', ']']))
      | _ => none
  | _ => none

/-- The literal part of the pattern. -/
def trackinfoMarker : List Char := ['t', 'r', 'a', 'c', 'k', 'i', 'n', 'f', 'o']

/-- `re.search` for the trackinfo pattern: scan start positions left to
right; at each occurrence of the literal try to complete the match, else
continue one position further.  Returns the captured group. -/
def searchTrackinfo : List Char → Option (List Char)
  | [] => none
  | c :: cs =>
      if trackinfoMarker.isPrefixOf (c :: cs) then
        match matchAfterMarker (List.drop 9 (c :: cs)) with
        | some g => some g
        | none => searchTrackinfo cs
      else searchTrackinfo cs

/-- The capture of the trackinfo regex on a page's text, as a string
(`match.group(1)`), or `none` when `re.search` returns no match. -/
def trackinfoSearchStr (s : String) : Option String :=
  (searchTrackinfo s.toList).map (fun l => String.mk l)

/-! ## helpers.py: `get_stream` (lines 97-103), the track-listing extraction
inside `get_album` (lines 71-76), and `search` (lines 48-65)

These functions have no `try/except`, so any exception propagates to the
caller; we model that with `Except PyError`.  The searched text stands for
`soup.text` of the fetched page. -/

/-- The exceptions the helpers code can raise. -/
inductive PyError where
  /-- the explicit `raise ValueError("No stream found")` -/
  | valueError : PyError
  /-- `json.loads` on a malformed payload -/
  | jsonDecodeError : PyError
  /-- `[0]` on an empty list -/
  | indexError : PyError
  /-- `d[k]` with `k` absent -/
  | keyError : PyError
  /-- subscripting / attribute access on a value of the wrong shape
  (e.g. `None["href"]`, `.get` on a non-dict) -/
  | typeError : PyError
deriving DecidableEq

/-- The track value helpers.py builds from one trackinfo entry:
`Track(name=t.get("title", "Track"), media_url=t["file"]["mp3-128"], ...)`.
Field values are kept as JSON values, as Python would. -/
structure HTrack where
  name : JVal
  media_url : JVal

/-- Build helpers.py's track from one decoded trackinfo entry (get_album
line 76 / get_stream line 103): `t.get("title", "Track")` and
`t["file"]["mp3-128"]`, the latter raising when `file` or `mp3-128` is
absent or `file` is not an object. -/
def helpersTrackFromJson (v : JVal) : Except PyError HTrack :=
  match v with
  | .obj fields =>
      let nm := (jGet fields "title").getD (.str "Track")
      match jGet fields "file" with
      | none => .error .keyError
      | some (.obj fm) =>
          match jGet fm "mp3-128" with
          | none => .error .keyError
          | some u => .ok ⟨nm, u⟩
      | some _ => .error .typeError
  | _ => .error .typeError

/-- The track-listing extraction inside `BandcampAPI.get_album` (helpers.py
lines 71-76): when the regex has no match the album's track list stays `[]`;
when it matches, `json.loads` may raise, and each entry's track construction
may raise. -/
def helpersExtractTracklist (text : String) : Except PyError (List HTrack) :=
  match trackinfoSearchStr text with
  | none => .ok []
  | some payload =>
      match jsonParse payload with
      | none => .error .jsonDecodeError
      | some (.arr ts) => ts.mapM helpersTrackFromJson
      | some _ => .error .typeError

/-- `BandcampAPI.get_stream` (helpers.py lines 97-103): `raise
ValueError("No stream found")` when the regex has no match; otherwise
`json.loads(...)` then `[0]` then the track construction. -/
def helpersGetStream (text : String) : Except PyError HTrack :=
  match trackinfoSearchStr text with
  | none => .error .valueError
  | some payload =>
      match jsonParse payload with
      | none => .error .jsonDecodeError
      | some (.arr (t :: _)) => helpersTrackFromJson t
      | some (.arr []) => .error .indexError
      | some _ => .error .typeError

/-- The media types `BandcampAPI.search` filters on. -/
inductive MediaType where
  | artist : MediaType
  | album : MediaType
  | track : MediaType
deriving DecidableEq

/-- One `li.searchresult` element as helpers.py's `search` reads it:
the `data-searchtype` attribute, the text of `select_one(".heading")`
(`none` when the node is missing, making `.get_text` raise), and the `href`
of `select_one("a")` (`none` when the node or attribute is missing, making
the subscript raise). -/
structure HSearchItem where
  searchtype : Option String
  headingText : Option String
  linkHref : Option String

/-- The per-kind result lists `search` accumulates; each appended entity is
recorded as its (name, link) pair. -/
structure HSearchResults where
  artists : List (String × String)
  albums : List (String × String)
  tracks : List (String × String)
deriving DecidableEq

/-- The `for item in soup.select("li.searchresult")` loop of
`BandcampAPI.search` (helpers.py lines 53-63): each item is appended to the
list of its `data-searchtype` kind, only when that kind is among the
requested `media_types`; a malformed item raises out of the whole call
(there is no per-item `try`).  Note the loop applies no limit of any kind. -/
def helpersSearchGo : List HSearchItem → List MediaType → HSearchResults →
    Except PyError HSearchResults
  | [], _, acc => .ok acc
  | it :: rest, mts, acc =>
      match it.headingText with
      | none => .error .typeError
      | some title =>
          match it.linkHref with
          | none => .error .typeError
          | some link =>
              let acc' :=
                if it.searchtype = some "t" ∧ MediaType.track ∈ mts then
                  { acc with tracks := acc.tracks ++ [(title, link)] }
                else if it.searchtype = some "a" ∧ MediaType.album ∈ mts then
                  { acc with albums := acc.albums ++ [(title, link)] }
                else if it.searchtype = some "b" ∧ MediaType.artist ∈ mts then
                  { acc with artists := acc.artists ++ [(title, link)] }
                else acc
              helpersSearchGo rest mts acc'

/-- `BandcampAPI.search` (helpers.py lines 48-65) over the parsed search
page's result items.  Its signature takes only the query and the requested
media types — there is no limit parameter. -/
def helpersSearch (items : List HSearchItem) (mts : List MediaType) :
    Except PyError HSearchResults :=
  helpersSearchGo items mts ⟨[], [], []⟩

/-! ## models.py: `BandcampAlbum` and `BandcampTrack` (lines 64-91), and
api.py: `get_album` (lines 377-475)

The fetched album page is modelled as a record of exactly the node
texts/attributes `get_album` reads from the soup, plus the outcome of the
`data-tralbum` regex + `json.loads` extraction.  The whole method body sits
in one `try/except` returning `None`, so any raised step collapses the result
to `none`. -/

/-- `BandcampTrack` (models.py lines 77-91).  `duration` is milliseconds;
the optional dataclass fields are `Option`s.  The `release_date`-style
`datetime` formatting does not occur here. -/
structure BandcampTrack where
  track_id : String
  title : String
  artist_name : String
  duration : ℤ
  artist_id : Option String
  album_id : Option String
  album_title : Option String
  url : Option String
  image_url : Option String
  track_number : Option Nat
  stream_url : Option String
deriving DecidableEq

/-- `BandcampAlbum` (models.py lines 64-74).  The `release_date` field is
omitted from the embedding: `get_album` fills it through
`datetime.fromtimestamp(...).isoformat()` inside its own `try/except: pass`,
which no claim concerns and whose calendar formatting we do not model. -/
structure BandcampAlbum where
  album_id : String
  title : String
  artist_name : String
  artist_id : Option String
  url : Option String
  image_url : Option String
  tracks : List BandcampTrack
deriving DecidableEq

/-- One entry of the decoded `play_data["trackinfo"]` array, recorded as the
optional fields `get_album` reads: `title` (string), `duration` (JSON
number, an exact rational), and `file` (the encoding map; `none` when the
key is absent or null — both make `track_info.get("file", \x7b\x7d)` falsy
or absent-alike for the truthiness guard). -/
structure TrackInfo where
  title : Option String
  duration : Option ℚ
  file : Option (List (String × String))
deriving DecidableEq

/-- The stream-selection chain of `get_album` (api.py lines 457-467): under
the `if file_info:` guard, the first *truthy* value among the keys `mp3-v0`,
`mp3-320`, `mp3-128`, `flac` is assigned to `stream_url`; otherwise it stays
unset. -/
def selectStreamUrl (fileInfo : List (String × String)) : Option String :=
  if fileInfo.isEmpty then none
  else if optTruthy (dGet fileInfo "mp3-v0") then dGet fileInfo "mp3-v0"
  else if optTruthy (dGet fileInfo "mp3-320") then dGet fileInfo "mp3-320"
  else if optTruthy (dGet fileInfo "mp3-128") then dGet fileInfo "mp3-128"
  else if optTruthy (dGet fileInfo "flac") then dGet fileInfo "flac"
  else none

/-- Modelled from the spec's words, for comparison with `selectStreamUrl`:
"select exactly one URL by descending fixed preference ...; the first present
key in that order wins; if none are present, the track has no playable
stream". -/
def specPreferredStream (fileInfo : List (String × String)) : Option String :=
  ["mp3-v0", "mp3-320", "mp3-128", "flac"].findSome?
    (fun k => if optTruthy (dGet fileInfo k) then dGet fileInfo k else none)

/-- One iteration of the `for idx, track_info in enumerate(tracks_info, 1)`
loop (api.py lines 440-467): build the `BandcampTrack` for listing entry
`ti` at 1-based position `idx`. -/
def mkApiTrack (albumId albumName artistName artistId albumUrl : String)
    (albumImage : Option String) (idx : Nat) (ti : TrackInfo) : BandcampTrack :=
  let title := ti.title.getD ""
  let trackId := albumId ++ "/" ++ pyLower (pyReplaceChar ' ' '-' title)
  { track_id := trackId
    title := title
    artist_name := artistName
    duration := pyInt ((ti.duration.getD 0) * 1000)
    artist_id := some artistId
    album_id := some albumId
    album_title := some albumName
    url := some (albumUrl ++ "/track/" ++ lastSegment trackId)
    image_url := if optTruthy albumImage then albumImage else none
    track_number := some idx
    stream_url := selectStreamUrl (ti.file.getD []) }

/-- The track loop of `get_album`: append one track per listing entry, with
`idx` counting up from its initial value (the source starts at 1). -/
def apiAlbumTracks (albumId albumName artistName artistId albumUrl : String)
    (albumImage : Option String) : Nat → List TrackInfo → List BandcampTrack
  | _, [] => []
  | idx, ti :: rest =>
      mkApiTrack albumId albumName artistName artistId albumUrl albumImage idx ti ::
        apiAlbumTracks albumId albumName artistName artistId albumUrl albumImage
          (idx + 1) rest

/-- Outcome of the `PLAY_DATA_REGEX` search plus unescaping and
`json.loads` on the album page (api.py lines 422-426): no regex match (the
track block is skipped), a match whose payload fails to parse (the raised
`JSONDecodeError` reaches the outer `except`), or the decoded
`play_data.get("trackinfo", [])` listing.  The only other key `get_album`
reads from the payload, `album_release_date`, feeds the omitted
`release_date` field. -/
inductive ParseOutcome (α : Type) where
  | noMatch : ParseOutcome α
  | parseError : ParseOutcome α
  | parsed (v : α) : ParseOutcome α
deriving DecidableEq

/-- The album page as `get_album` reads it (api.py lines 399-437):
`soup.find("h2", trackTitle).text` (a missing node makes `.text` raise),
`soup.find("span", byArtist)` giving the artist text and the nested
`.find("a")["href"]` (span missing ⇒ raise; `a` or `href` missing ⇒ raise),
`soup.find("div", tralbumArt)` (div missing ⇒ `.find` on `None` raises) with
its optional `img` and that img's optional `src`, and the `data-tralbum`
extraction outcome. -/
structure ApiAlbumPage where
  trackTitleText : Option String
  byArtist : Option (String × Option String)
  tralbumArtImg : Option (Option (Option String))
  playData : ParseOutcome (List TrackInfo)
deriving DecidableEq

/-- The album-art assignment (api.py lines 417-419): given the `tralbumArt`
div's optional `img` with its optional `src`, the album's `image_url` is set
only under `if art_tag and art_tag.get("src")`. -/
def artImageUrl (artDiv : Option (Option String)) : Option String :=
  match artDiv with
  | some (some src) => if src != "" then some src else none
  | _ => none

/-- The body of `BandcampApiClient.get_album` from the parsed page on
(api.py lines 399-471), given the album id and resolved album URL.  Any
modelled exception — a required node missing, or a matched `data-tralbum`
payload failing to parse — makes the enclosing `try/except` return `None`. -/
def apiGetAlbumFromPage (albumId albumUrl : String) (page : ApiAlbumPage) :
    Option BandcampAlbum :=
  match page.trackTitleText, page.byArtist, page.tralbumArtImg with
  | some albumName, some (artistName, some artistUrl), some artDiv =>
      let artistId := lastSegment artistUrl
      let imageUrl : Option String := artImageUrl artDiv
      match page.playData with
      | .noMatch =>
          some ⟨albumId, albumName, artistName, some artistId, some albumUrl,
            imageUrl, []⟩
      | .parseError => none
      | .parsed tracksInfo =>
          some ⟨albumId, albumName, artistName, some artistId, some albumUrl,
            imageUrl,
            apiAlbumTracks albumId albumName artistName artistId albumUrl
              imageUrl 1 tracksInfo⟩
  | _, _, _ => none

/-- The URL-resolution head of `get_album` (api.py lines 380-391): an id
containing `/` is split into artist and album slugs and the canonical URL is
built directly; otherwise the URL of the first album result of a search for
the id is used (`searchAlbumUrl`, `none` when the search returned no
albums, making `get_album` return `None`). -/
def resolveAlbumUrl (albumId : String) (searchAlbumUrl : Option String) :
    Option String :=
  if pyContains albumId '/' then
    let parts := pySplitSlash albumId
    some ("https://" ++ parts.headD "" ++ ".bandcamp.com/album/" ++ parts.getD 1 "")
  else searchAlbumUrl

/-- `BandcampApiClient.get_album` (api.py lines 377-475): resolve the URL,
fetch the page (`fetched = none` models a non-200 response or a fetch that
raises), then assemble the album. -/
def apiGetAlbum (albumId : String) (searchAlbumUrl : Option String)
    (fetched : Option ApiAlbumPage) : Option BandcampAlbum :=
  match resolveAlbumUrl albumId searchAlbumUrl with
  | none => none
  | some url =>
      match fetched with
      | none => none
      | some page => apiGetAlbumFromPage albumId url page

/-! ## Lemmas about the pagination loop -/

/-- A run of full pages: each page is status 200, has exactly 100 items, and
carries a truthy `last_token`. -/
def fullResps {α : Type} (full : List (List α × Int)) : List (PageResp α) :=
  full.map (fun p => PageResp.page 200 p.1 (some p.2))

theorem collectLoop_full_cons {α : Type} (batch : List α) (t : Int)
    (hlen : batch.length = 100) (ht : t ≠ 0) (rest : List (PageResp α)) :
    collectLoop (PageResp.page 200 batch (some t) :: rest) =
      ((collectLoop rest).1.map (fun more => batch ++ more),
        (collectLoop rest).2 + 1) := by
  have hne : batch.isEmpty = false := by
    cases batch with
    | nil => simp at hlen
    | cons a l => rfl
  have htr : intTruthy (some t) = true := by
    simp [intTruthy, ht]
  simp [collectLoop, hne, hlen, htr]

theorem collectLoop_fullResps {α : Type} (full : List (List α × Int))
    (hfull : ∀ p ∈ full, p.1.length = 100 ∧ p.2 ≠ 0) (rest : List (PageResp α)) :
    collectLoop (fullResps full ++ rest) =
      ((collectLoop rest).1.map
          (fun more => (full.map Prod.fst).flatten ++ more),
        (collectLoop rest).2 + full.length) := by
  induction full with
  | nil =>
      rcases hr : collectLoop rest with ⟨e, n⟩
      cases e <;> simp [fullResps, hr, Except.map]
  | cons p ps ih =>
      have hp := hfull p (by simp)
      have hps : ∀ q ∈ ps, q.1.length = 100 ∧ q.2 ≠ 0 := by
        intro q hq
        exact hfull q (by simp [hq])
      simp only [fullResps, List.map_cons, List.cons_append]
      rw [collectLoop_full_cons p.1 p.2 hp.1 hp.2]
      rw [show (ps.map (fun p => PageResp.page 200 p.1 (some p.2))) ++ rest =
        fullResps ps ++ rest from rfl]
      rw [ih hps]
      rcases hr : collectLoop rest with ⟨e, n⟩
      cases e <;> simp [hr, Except.map, List.flatten_cons, List.append_assoc] <;> omega

theorem collectLoop_non200 {α : Type} (st : Nat) (hst : st ≠ 200)
    (batch : List α) (tok : Option Int) (rest : List (PageResp α)) :
    collectLoop (PageResp.page st batch tok :: rest) = (.ok [], 1) := by
  simp [collectLoop, hst]

theorem collectLoop_falsyTok {α : Type} (batch : List α)
    (hlen : batch.length = 100) (tok : Option Int)
    (htok : tok = none ∨ tok = some 0) (rest : List (PageResp α)) :
    collectLoop (PageResp.page 200 batch tok :: rest) = (.ok batch, 1) := by
  have hne : batch.isEmpty = false := by
    cases batch with
    | nil => simp at hlen
    | cons a l => rfl
  have htr : intTruthy tok = false := by
    rcases htok with h | h <;> simp [h, intTruthy]
  simp [collectLoop, hne, hlen, htr]

theorem collectLoop_shortFinal {α : Type} (batch : List α)
    (hlt : batch.length < 100) (hne : batch ≠ [])
    (tok : Option Int) (rest : List (PageResp α)) :
    collectLoop (PageResp.page 200 batch tok :: rest) = (.ok batch, 1) := by
  have hne' : batch.isEmpty = false := by
    cases batch with
    | nil => exact absurd rfl hne
    | cons a l => rfl
  simp [collectLoop, hne', hlt]

theorem collectLoop_emptyFinal {α : Type} (tok : Option Int)
    (rest : List (PageResp α)) :
    collectLoop (PageResp.page 200 ([] : List α) tok :: rest) = (.ok [], 1) := by
  simp [collectLoop]

theorem get_collection_items_authed {α : Type} (ident : UserIdentity)
    (hauth : ident.is_authenticated = true) (hfan : intTruthy ident.fan_id = true)
    (resps : List (PageResp α)) :
    get_collection_items ident resps =
      (match collectLoop resps with
        | (.ok items, n) => (items, n)
        | (.error _, n) => ([], n)) := by
  simp [get_collection_items, hauth, hfan]

/-! ## Claims C2, C5, C9: pagination -/

/-- An authenticated identity with a truthy `fan_id`, for concrete runs. -/
def authedIdent : UserIdentity := ⟨some 7, none, none, none, none, true⟩

/-- C2, counterexample: after a successful full first page (100 items,
truthy `last_token`), a transport error on the second page request makes
`get_collection_items` return the empty list — the `except` clause discards
the items already retrieved — contradicting the claim that the items
retrieved before the failure are returned. -/
theorem C2_counterexample :
    get_collection_items authedIdent
        [PageResp.page 200 (List.range 100) (some 1), PageResp.err] = ([], 2) ∧
    (List.range 100 : List ℕ) ≠ [] := by
  constructor
  · rfl
  · decide

/-- C2 (amended): when a page request returns a non-200 status after a run
of successful full pages, the three listing operations return exactly the
items retrieved so far; when a page request raises a transport error, the
accumulated items are discarded and the empty list is returned. -/
theorem C2_truncated_listing {α : Type} (ident : UserIdentity)
    (hauth : ident.is_authenticated = true)
    (hfan : intTruthy ident.fan_id = true)
    (full : List (List α × Int))
    (hfull : ∀ p ∈ full, p.1.length = 100 ∧ p.2 ≠ 0)
    (st : Nat) (hst : st ≠ 200) (batch : List α) (tok : Option Int)
    (rest : List (PageResp α)) :
    get_collection_items ident
        (fullResps full ++ PageResp.page st batch tok :: rest) =
      ((full.map Prod.fst).flatten, full.length + 1) ∧
    get_wishlist_items ident
        (fullResps full ++ PageResp.page st batch tok :: rest) =
      ((full.map Prod.fst).flatten, full.length + 1) ∧
    get_followed_artists ident
        (fullResps full ++ PageResp.page st batch tok :: rest) =
      ((full.map Prod.fst).flatten, full.length + 1) ∧
    get_collection_items ident (fullResps full ++ PageResp.err :: rest) =
      ([], full.length + 1) := by
  have h1 : collectLoop (fullResps full ++ PageResp.page st batch tok :: rest) =
      (.ok ((full.map Prod.fst).flatten), full.length + 1) := by
    rw [collectLoop_fullResps full hfull, collectLoop_non200 st hst]
    simp [Except.map]
    omega
  have h2 : collectLoop (fullResps full ++ PageResp.err :: rest) =
      (.error (), full.length + 1) := by
    rw [collectLoop_fullResps full hfull]
    simp [collectLoop, Except.map]
    omega
  refine ⟨?_, ?_, ?_, ?_⟩ <;>
    simp [get_collection_items, get_wishlist_items, get_followed_artists,
      hauth, hfan, h1, h2]

/-- C2 witness: one full page of 100 items followed by a 500 response yields
the first page's items (and a request count of 2). -/
theorem C2_witness :
    get_collection_items authedIdent
        (fullResps [(List.range 100, 1)] ++
          [PageResp.page 500 ([] : List ℕ) none]) = (List.range 100, 2) := by
  have h := (C2_truncated_listing authedIdent rfl rfl [(List.range 100, 1)]
    (by decide) 500 (by decide) [] none []).1
  exact h.trans (by decide)

/-- C5, counterexample: a full first page (100 items) whose response carries
`last_token: 0` — the cursor field is present — terminates the run anyway
(`if not offset` treats `0` as falsy), so the second page's item is never
retrieved; the claim's "terminates exactly when ... or lacks a last_token
cursor field" does not hold on this input. -/
theorem C5_counterexample :
    get_collection_items authedIdent
        [PageResp.page 200 (List.range 100) (some 0),
          PageResp.page 200 [100] (some 1)] = (List.range 100, 1) ∧
    (100 : ℕ) ∉ (List.range 100) := by
  constructor
  · rfl
  · decide

/-- C5 (amended): a pagination run over successful pages terminates when a
page has zero items, or fewer than 100 items, or a `last_token` that is
absent or falsy (`0`); the termination is inclusive — the final page's items
are appended to the result in server order. -/
theorem C5_termination {α : Type} (ident : UserIdentity)
    (hauth : ident.is_authenticated = true)
    (hfan : intTruthy ident.fan_id = true)
    (full : List (List α × Int))
    (hfull : ∀ p ∈ full, p.1.length = 100 ∧ p.2 ≠ 0) :
    (∀ final tokF, final.length < 100 → final ≠ [] →
      get_collection_items ident
          (fullResps full ++ [PageResp.page 200 final tokF]) =
        ((full.map Prod.fst).flatten ++ final, full.length + 1)) ∧
    (∀ batch tok rest, batch.length = 100 → tok = none ∨ tok = some 0 →
      get_collection_items ident
          (fullResps full ++ PageResp.page 200 batch tok :: rest) =
        ((full.map Prod.fst).flatten ++ batch, full.length + 1)) ∧
    (∀ tokF rest,
      get_collection_items ident
          (fullResps full ++ PageResp.page 200 ([] : List α) tokF :: rest) =
        ((full.map Prod.fst).flatten, full.length + 1)) := by
  refine ⟨?_, ?_, ?_⟩
  · intro final tokF hlt hne
    have h : collectLoop (fullResps full ++ [PageResp.page 200 final tokF]) =
        (.ok ((full.map Prod.fst).flatten ++ final), full.length + 1) := by
      rw [collectLoop_fullResps full hfull,
        collectLoop_shortFinal final hlt hne tokF []]
      simp [Except.map]
      omega
    simp [get_collection_items, hauth, hfan, h]
  · intro batch tok rest hlen htok
    have h : collectLoop
        (fullResps full ++ PageResp.page 200 batch tok :: rest) =
        (.ok ((full.map Prod.fst).flatten ++ batch), full.length + 1) := by
      rw [collectLoop_fullResps full hfull,
        collectLoop_falsyTok batch hlen tok htok rest]
      simp [Except.map]
      omega
    simp [get_collection_items, hauth, hfan, h]
  · intro tokF rest
    have h : collectLoop
        (fullResps full ++ PageResp.page 200 ([] : List α) tokF :: rest) =
        (.ok ((full.map Prod.fst).flatten), full.length + 1) := by
      rw [collectLoop_fullResps full hfull, collectLoop_emptyFinal tokF rest]
      simp [Except.map]
      omega
    simp [get_collection_items, hauth, hfan, h]

set_option maxRecDepth 4000 in
/-- C5 witness: server pages of sizes [100, 100, 37] yield exactly the 237
items once, in server order, with three requests issued. -/
theorem C5_witness :
    get_collection_items authedIdent
        (fullResps [(List.range 100, 1), (List.range' 100 100, 2)] ++
          [PageResp.page 200 (List.range' 200 37) none]) =
      (List.range 237, 3) := by
  have h := (C5_termination authedIdent rfl rfl
    [(List.range 100, 1), (List.range' 100 100, 2)] (by decide)).1
    (List.range' 200 37) none (by decide) (by decide)
  exact h.trans (by decide)

/-- C9: while the client's identity is unauthenticated or has no truthy
`fan_id`, the three listing operations return the empty list immediately,
issuing zero page requests. -/
theorem C9_unauthenticated_guard {α : Type} (ident : UserIdentity)
    (resps : List (PageResp α))
    (h : ident.is_authenticated = false ∨ intTruthy ident.fan_id = false) :
    get_collection_items ident resps = ([], 0) ∧
    get_wishlist_items ident resps = ([], 0) ∧
    get_followed_artists ident resps = ([], 0) := by
  rcases h with h | h
  · refine ⟨?_, ?_, ?_⟩ <;>
      simp [get_collection_items, get_wishlist_items, get_followed_artists, h]
  · cases ha : ident.is_authenticated <;>
      refine ⟨?_, ?_, ?_⟩ <;>
        simp [get_collection_items, get_wishlist_items, get_followed_artists,
          h, ha]

/-- C9 witness: the startup identity (unauthenticated) makes all three
listing calls return `([], 0)` even when the server would answer. -/
theorem C9_witness :
    get_collection_items UserIdentity.initial
        [(PageResp.err : PageResp ℕ)] = ([], 0) ∧
    get_wishlist_items UserIdentity.initial
        [(PageResp.err : PageResp ℕ)] = ([], 0) ∧
    get_followed_artists UserIdentity.initial
        [(PageResp.err : PageResp ℕ)] = ([], 0) :=
  C9_unauthenticated_guard UserIdentity.initial [PageResp.err] (Or.inl rfl)

/-! ## Claim C6: authentication atomicity -/

/-- The truthy user data an authentication attempt obtained, if any. -/
def authDataObtained : CookieAuthOutcome → Option UserData
  | .verifyReturned (some d) _ => some d
  | _ => none

/-- Concrete verified user data for runs. -/
def exUserData : UserData := ⟨some 42, some "fan42", none, none, none⟩

/-- C6, counterexample: a cookie authentication attempt that verifies user
data (fan_id 42) but then fails while persisting the cookie jar returns the
failure value `False` — yet the stored Identity has already been replaced,
contradicting the claim that a failed attempt leaves the prior Identity
unchanged.  (`authenticate_with_cookies` assigns `self.user_identity` on
line 80, before `save_cookies` on line 81; the raised exception reaches the
`except` clause, which returns `False`.) -/
theorem C6_counterexample :
    authenticate_with_cookies UserIdentity.initial
        (CookieAuthOutcome.verifyReturned (some exUserData) true) =
      (false, identityFromApiData (some exUserData)) ∧
    identityFromApiData (some exUserData) ≠ UserIdentity.initial := by
  constructor
  · rfl
  · decide

/-- C6 (amended): every authentication attempt that fails before truthy user
data is obtained returns False with the prior Identity unchanged, and the
Identity is only ever replaced wholesale by `from_api_data` of the obtained
user data — but when cookie persistence fails after verification, the call
returns False although the Identity has already been replaced. -/
theorem C6_auth_atomicity (ident : UserIdentity) (o : CookieAuthOutcome) :
    (authDataObtained o = none →
      authenticate_with_cookies ident o = (false, ident)) ∧
    (∀ d, authDataObtained o = some d →
      (authenticate_with_cookies ident o).2 = identityFromApiData (some d)) ∧
    (∀ d, authDataObtained o = some d →
      ((authenticate_with_cookies ident o).1 = true ↔
        o = .verifyReturned (some d) false)) := by
  refine ⟨?_, ?_, ?_⟩
  · intro h
    cases o with
    | raisedBeforeVerify => rfl
    | verifyReturned d s =>
        cases d with
        | none => rfl
        | some d' => simp [authDataObtained] at h
  · intro d h
    cases o with
    | raisedBeforeVerify => simp [authDataObtained] at h
    | verifyReturned d' s =>
        cases d' with
        | none => simp [authDataObtained] at h
        | some d'' =>
            simp [authDataObtained] at h
            subst h
            cases s <;> rfl
  · intro d h
    cases o with
    | raisedBeforeVerify => simp [authDataObtained] at h
    | verifyReturned d' s =>
        cases d' with
        | none => simp [authDataObtained] at h
        | some d'' =>
            simp [authDataObtained] at h
            subst h
            cases s <;> simp [authenticate_with_cookies]

/-- C6 witness: a rejected attempt (falsy user data) leaves the startup
identity unchanged and returns False; a verified attempt whose cookie save
succeeds stores `from_api_data` of the obtained data and returns True. -/
theorem C6_witness :
    authenticate_with_cookies UserIdentity.initial
        (CookieAuthOutcome.verifyReturned none false) =
      (false, UserIdentity.initial) ∧
    (authenticate_with_cookies UserIdentity.initial
        (CookieAuthOutcome.verifyReturned (some exUserData) false)).2 =
      identityFromApiData (some exUserData) ∧
    (authenticate_with_cookies UserIdentity.initial
        (CookieAuthOutcome.verifyReturned (some exUserData) false)).1 = true := by
  refine ⟨?_, ?_, ?_⟩
  · exact (C6_auth_atomicity UserIdentity.initial
      (CookieAuthOutcome.verifyReturned none false)).1 rfl
  · exact (C6_auth_atomicity UserIdentity.initial
      (CookieAuthOutcome.verifyReturned (some exUserData) false)).2.1
      exUserData rfl
  · exact ((C6_auth_atomicity UserIdentity.initial
      (CookieAuthOutcome.verifyReturned (some exUserData) false)).2.2
      exUserData rfl).mpr rfl

/-! ## Claim C1: extraction behaviour on pages without the marker -/

/-- A page text with no trackinfo marker. -/
def exPlainText : String := "<p>hello world, nothing embedded</p>"

/-- A second marker-free page text. -/
def exNoMarkerText : String := "<html><body>no embedded data on this page</body></html>"

/-- C1, counterexample: on a page whose text has no trackinfo marker,
`BandcampAPI.get_stream` does not terminate normally with an absent result —
it executes `raise ValueError("No stream found")` (helpers.py line 101),
propagating the exception to the caller, contrary to the claim that
extraction never raises and that `get_stream` terminates normally on such a
page. -/
theorem C1_counterexample :
    helpersGetStream exPlainText = Except.error PyError.valueError := rfl

/-- C1 (amended): on every page text without the trackinfo marker, the
track-listing extraction inside helpers' `get_album` yields an empty track
list without raising, and api.py's `get_album` returns `None` rather than
raising when the matched `data-tralbum` payload fails to parse (and yields
an album with no tracks when the pattern does not match) — but helpers'
`get_stream` raises `ValueError` on a page without the marker. -/
theorem C1_extraction_behaviour :
    (∀ text : String, trackinfoSearchStr text = none →
      helpersExtractTracklist text = .ok [] ∧
      helpersGetStream text = .error .valueError) ∧
    (∀ albumId searchUrl pg, pg.playData = ParseOutcome.parseError →
      apiGetAlbum albumId searchUrl (some pg) = none) ∧
    (∀ albumId searchUrl pg a, pg.playData = ParseOutcome.noMatch →
      apiGetAlbum albumId searchUrl (some pg) = some a → a.tracks = []) := by
  refine ⟨?_, ?_, ?_⟩
  · intro text h
    constructor
    · simp [helpersExtractTracklist, h]
    · simp [helpersGetStream, h]
  · intro albumId searchUrl pg h
    cases hr : resolveAlbumUrl albumId searchUrl with
    | none => simp [apiGetAlbum, hr]
    | some url =>
        obtain ⟨tt, ba, art, pd⟩ := pg
        simp only [] at h
        subst h
        simp only [apiGetAlbum, hr]
        rcases tt with _ | tt' <;> rcases art with _ | art' <;>
          rcases ba with _ | ⟨an, _ | au⟩ <;> rfl
  · intro albumId searchUrl pg a h h2
    cases hr : resolveAlbumUrl albumId searchUrl with
    | none => simp [apiGetAlbum, hr] at h2
    | some url =>
        obtain ⟨tt, ba, art, pd⟩ := pg
        simp only [] at h
        subst h
        simp only [apiGetAlbum, hr] at h2
        rcases tt with _ | tt' <;> rcases art with _ | art' <;>
          rcases ba with _ | ⟨an, _ | au⟩ <;>
            simp [apiGetAlbumFromPage] at h2
        rw [← h2]

/-- C1 witness: a concrete marker-free page yields an empty extracted track
list and a raised `ValueError` from `get_stream`, and a concrete album page
whose `data-tralbum` payload fails to parse yields `None` from
api.py's `get_album`. -/
theorem C1_witness :
    helpersExtractTracklist exNoMarkerText = .ok [] ∧
    helpersGetStream exNoMarkerText = .error .valueError ∧
    apiGetAlbum "artist-a/album-b" none
        (some ⟨some "T", some ("A", some "https://a.bandcamp.com"),
          some none, ParseOutcome.parseError⟩) = none := by
  have hm : trackinfoSearchStr exNoMarkerText = none := rfl
  exact ⟨(C1_extraction_behaviour.1 exNoMarkerText hm).1,
    (C1_extraction_behaviour.1 exNoMarkerText hm).2,
    C1_extraction_behaviour.2.1 "artist-a/album-b" none _ rfl⟩

/-! ## Claim C3: stream selection -/

theorem optTruthy_eq_true {o : Option String} (h : optTruthy o = true) :
    ∃ s, o = some s := by
  cases o with
  | none => simp [optTruthy] at h
  | some s => exact ⟨s, rfl⟩

/-- C3, counterexample: helpers' `get_album` builds each track with
`track["file"]["mp3-128"]` (helpers.py line 76); on a track whose encoding
map is empty it raises `KeyError` instead of leaving the stream unset, so
the claim's "for an empty encoding map the track's stream_url stays unset
without raising an error" fails on this code path. -/
theorem C3_counterexample :
    helpersTrackFromJson
        (JVal.obj [("title", JVal.str "Song"), ("file", JVal.obj [])]) =
      Except.error PyError.keyError := rfl

/-- C3 (amended): api.py's stream selection picks exactly one URL by the
fixed descending preference mp3-v0, mp3-320, mp3-128, flac — the first
present truthy key wins (so mp3-320 beats mp3-128, and flac alone is
chosen), and an empty encoding map leaves `stream_url` unset without error;
helpers.py's `get_album`, by contrast, reads `file["mp3-128"]`
unconditionally and raises `KeyError` when that key is absent. -/
theorem C3_stream_selection :
    (∀ m, selectStreamUrl m = specPreferredStream m) ∧
    selectStreamUrl [] = none ∧
    selectStreamUrl [("mp3-320", "A"), ("mp3-128", "B")] = some "A" ∧
    selectStreamUrl [("flac", "C")] = some "C" ∧
    helpersTrackFromJson
        (JVal.obj [("title", JVal.str "T"), ("file", JVal.obj [])]) =
      .error .keyError := by
  refine ⟨?_, rfl, rfl, rfl, rfl⟩
  intro m
  cases m with
  | nil => rfl
  | cons p ms =>
      have hne : (p :: ms).isEmpty = false := rfl
      simp only [selectStreamUrl, specPreferredStream, hne,
        List.findSome?_cons, List.findSome?_nil, Bool.false_eq_true,
        if_false]
      by_cases h1 : optTruthy (dGet (p :: ms) "mp3-v0") = true
      · obtain ⟨v, hv⟩ := optTruthy_eq_true h1
        rw [hv] at h1
        simp [h1, hv]
      · simp only [Bool.not_eq_true] at h1
        simp only [h1, if_false, Bool.false_eq_true]
        by_cases h2 : optTruthy (dGet (p :: ms) "mp3-320") = true
        · obtain ⟨v, hv⟩ := optTruthy_eq_true h2
          rw [hv] at h2
          simp [h2, hv]
        · simp only [Bool.not_eq_true] at h2
          simp only [h2, if_false, Bool.false_eq_true]
          by_cases h3 : optTruthy (dGet (p :: ms) "mp3-128") = true
          · obtain ⟨v, hv⟩ := optTruthy_eq_true h3
            rw [hv] at h3
            simp [h3, hv]
          · simp only [Bool.not_eq_true] at h3
            simp only [h3, if_false, Bool.false_eq_true]
            by_cases h4 : optTruthy (dGet (p :: ms) "flac") = true
            · obtain ⟨v, hv⟩ := optTruthy_eq_true h4
              rw [hv] at h4
              simp [h4, hv]
            · simp only [Bool.not_eq_true] at h4
              simp [h4]

/-! ## Lemmas about the album track loop (claims C4, C7, C10) -/

/-- The extracted track listing of an album page: the decoded
`trackinfo` array when the `data-tralbum` extraction succeeded, else `[]`. -/
def pageTracksInfo (pg : ApiAlbumPage) : List TrackInfo :=
  match pg.playData with
  | .parsed l => l
  | _ => []

theorem apiAlbumTracks_map_duration (aid an arn arid url : String)
    (img : Option String) (idx : Nat) (l : List TrackInfo) :
    (apiAlbumTracks aid an arn arid url img idx l).map (fun t => t.duration) =
      l.map (fun ti => pyInt ((ti.duration.getD 0) * 1000)) := by
  induction l generalizing idx with
  | nil => rfl
  | cons ti rest ih => simp [apiAlbumTracks, mkApiTrack, ih]

theorem apiAlbumTracks_map_title (aid an arn arid url : String)
    (img : Option String) (idx : Nat) (l : List TrackInfo) :
    (apiAlbumTracks aid an arn arid url img idx l).map (fun t => t.title) =
      l.map (fun ti => ti.title.getD "") := by
  induction l generalizing idx with
  | nil => rfl
  | cons ti rest ih => simp [apiAlbumTracks, mkApiTrack, ih]

theorem apiAlbumTracks_map_number (aid an arn arid url : String)
    (img : Option String) (idx : Nat) (l : List TrackInfo) :
    (apiAlbumTracks aid an arn arid url img idx l).map
        (fun t => t.track_number) =
      (List.range l.length).map (fun i => some (idx + i)) := by
  induction l generalizing idx with
  | nil => rfl
  | cons ti rest ih =>
      simp only [apiAlbumTracks, mkApiTrack, List.map_cons, ih,
        List.length_cons, List.range_succ_eq_map, List.map_map]
      refine List.cons_eq_cons.mpr ⟨by simp, ?_⟩
      apply List.map_congr_left
      intro i _
      simp only [Function.comp_apply, Option.some_inj]
      omega

theorem apiAlbumTracks_mem (aid an arn arid url : String)
    (img : Option String) (idx : Nat) (l : List TrackInfo)
    (t : BandcampTrack) (ht : t ∈ apiAlbumTracks aid an arn arid url img idx l) :
    t.album_id = some aid ∧ t.album_title = some an ∧ t.artist_name = arn ∧
    t.artist_id = some arid ∧
    t.image_url = (if optTruthy img then img else none) := by
  induction l generalizing idx with
  | nil => simp [apiAlbumTracks] at ht
  | cons ti rest ih =>
      simp only [apiAlbumTracks, List.mem_cons] at ht
      rcases ht with ht | ht
      · subst ht
        exact ⟨rfl, rfl, rfl, rfl, rfl⟩
      · exact ih (idx + 1) ht

theorem artImageUrl_ne_empty (artDiv : Option (Option String)) (u : String)
    (h : artImageUrl artDiv = some u) : u ≠ "" := by
  rcases artDiv with _ | (_ | src)
  · simp [artImageUrl] at h
  · simp [artImageUrl] at h
  · simp only [artImageUrl] at h
    by_cases hs : src = ""
    · simp [hs] at h
    · have : (src != "") = true := by simp [hs]
      rw [this] at h
      simp at h
      subst h
      exact hs

/-- Destructuring of a successful `get_album` call: the returned album
carries the requested id, its artist id and url are set, its image url (if
any) is a nonempty string, and its track list is exactly the track loop run
over the extracted listing with the album's own fields. -/
theorem apiGetAlbum_some_fields {albumId : String} {su : Option String}
    {pg : ApiAlbumPage} {a : BandcampAlbum}
    (h : apiGetAlbum albumId su (some pg) = some a) :
    a.album_id = albumId ∧ a.artist_id.isSome = true ∧ a.url.isSome = true ∧
    (∀ u, a.image_url = some u → u ≠ "") ∧
    a.tracks = apiAlbumTracks albumId a.title a.artist_name
      (a.artist_id.getD "") (a.url.getD "") a.image_url 1 (pageTracksInfo pg) := by
  cases hr : resolveAlbumUrl albumId su with
  | none => simp [apiGetAlbum, hr] at h
  | some url =>
      obtain ⟨tt, ba, art, pd⟩ := pg
      simp only [apiGetAlbum, hr] at h
      rcases tt with _ | albumName
      · simp [apiGetAlbumFromPage] at h
      rcases ba with _ | ⟨artistName, au⟩
      · simp [apiGetAlbumFromPage] at h
      rcases au with _ | artistUrl
      · simp [apiGetAlbumFromPage] at h
      rcases art with _ | artDiv
      · simp [apiGetAlbumFromPage] at h
      cases pd with
      | parseError => simp [apiGetAlbumFromPage] at h
      | noMatch =>
          simp only [apiGetAlbumFromPage] at h
          rw [Option.some_inj] at h
          subst h
          refine ⟨rfl, rfl, rfl, ?_, rfl⟩
          intro u hu
          exact artImageUrl_ne_empty artDiv u hu
      | parsed l =>
          simp only [apiGetAlbumFromPage] at h
          rw [Option.some_inj] at h
          subst h
          refine ⟨rfl, rfl, rfl, ?_, rfl⟩
          intro u hu
          exact artImageUrl_ne_empty artDiv u hu

/-! ## Claims C4, C7, C10: the assembled album -/

/-- C4: every track assembled by `get_album` stores, in milliseconds, the
listing's fractional-seconds duration multiplied by 1000 and truncated (not
rounded) toward zero; a missing duration field yields `0` (the `.get`
default `0` times 1000). -/
theorem C4_duration_truncation (albumId : String) (su : Option String)
    (pg : ApiAlbumPage) (a : BandcampAlbum)
    (h : apiGetAlbum albumId su (some pg) = some a) :
    a.tracks.map (fun t => t.duration) =
      (pageTracksInfo pg).map (fun ti => pyInt ((ti.duration.getD 0) * 1000)) := by
  obtain ⟨-, -, -, -, htracks⟩ := apiGetAlbum_some_fields h
  rw [htracks, apiAlbumTracks_map_duration]

/-- C7: for every album returned by `get_album`, the tracks carry the
contiguous 1-based numbers of their positions in the extracted listing, and
the listing's own order is preserved (the titles appear in listing order,
without re-sorting). -/
theorem C7_track_numbering (albumId : String) (su : Option String)
    (pg : ApiAlbumPage) (a : BandcampAlbum)
    (h : apiGetAlbum albumId su (some pg) = some a) :
    a.tracks.map (fun t => t.track_number) =
      (List.range a.tracks.length).map (fun i => some (i + 1)) ∧
    a.tracks.map (fun t => t.title) =
      (pageTracksInfo pg).map (fun ti => ti.title.getD "") := by
  obtain ⟨-, -, -, -, htracks⟩ := apiGetAlbum_some_fields h
  constructor
  · rw [htracks, apiAlbumTracks_map_number]
    have hlen : (apiAlbumTracks albumId a.title a.artist_name
        (a.artist_id.getD "") (a.url.getD "") a.image_url 1
        (pageTracksInfo pg)).length = (pageTracksInfo pg).length := by
      rw [← List.length_map (f := fun t => t.track_number),
        apiAlbumTracks_map_number, List.length_map, List.length_range]
    rw [hlen]
    apply List.map_congr_left
    intro i _
    simp only [Option.some_inj]
    omega
  · rw [htracks, apiAlbumTracks_map_title]

/-- C10: every track of an album returned by `get_album` carries the
containing album's identifiers — its `album_id`, `album_title`,
`artist_name` and `artist_id` equal the album's, and whenever the album has
an `image_url` the track's equals it. -/
theorem C10_track_album_crossrefs (albumId : String) (su : Option String)
    (pg : ApiAlbumPage) (a : BandcampAlbum)
    (h : apiGetAlbum albumId su (some pg) = some a)
    (t : BandcampTrack) (ht : t ∈ a.tracks) :
    t.album_id = some a.album_id ∧ t.album_title = some a.title ∧
    t.artist_name = a.artist_name ∧ t.artist_id = a.artist_id ∧
    (∀ u, a.image_url = some u → t.image_url = some u) := by
  obtain ⟨hid, hart, -, himg, htracks⟩ := apiGetAlbum_some_fields h
  rw [htracks] at ht
  have hm := apiAlbumTracks_mem albumId a.title a.artist_name
    (a.artist_id.getD "") (a.url.getD "") a.image_url 1 (pageTracksInfo pg) t ht
  obtain ⟨h1, h2, h3, h4, h5⟩ := hm
  refine ⟨by rw [h1, hid], h2, h3, ?_, ?_⟩
  · rw [h4]
    cases ha : a.artist_id with
    | none => rw [ha] at hart; simp at hart
    | some s => simp [ha]
  · intro u hu
    have hne : u ≠ "" := himg u hu
    rw [h5, hu]
    simp [optTruthy, hne]

/-- A concrete album page: three listing entries with fractional-second
durations 200.5, 180.0 and 210.25, as in the spec's end-to-end scenario. -/
def exAlbumPage : ApiAlbumPage :=
  ⟨some "Album Y", some ("Artist X", some "https://artist-x.bandcamp.com"),
    some (some (some "https://img.example/cover.jpg")),
    .parsed
      [⟨some "Song One", some (200.5 : ℚ), some [("mp3-128", "https://s/1")]⟩,
        ⟨some "Song Two", some (180 : ℚ), none⟩,
        ⟨some "Song Three", some (210.25 : ℚ), some []⟩]⟩

/-- A throwaway album value for `Option.getD`. -/
def junkAlbum : BandcampAlbum := ⟨"", "", "", none, none, none, []⟩

/-- A throwaway track value for `List.headD`. -/
def junkTrack : BandcampTrack :=
  ⟨"", "", "", 0, none, none, none, none, none, none, none⟩

/-- The album `get_album` assembles from `exAlbumPage` for the reference
`"artist-x/album-y"`. -/
def exAlbumResult : BandcampAlbum :=
  (apiGetAlbum "artist-x/album-y" none (some exAlbumPage)).getD junkAlbum

/-- C4 witness: durations [200.5, 180.0, 210.25] seconds are stored as
[200500, 180000, 210250] milliseconds. -/
theorem C4_witness :
    exAlbumResult.tracks.map (fun t => t.duration) =
      [200500, 180000, 210250] := by
  have h : apiGetAlbum "artist-x/album-y" none (some exAlbumPage) =
      some exAlbumResult := rfl
  rw [C4_duration_truncation "artist-x/album-y" none exAlbumPage exAlbumResult h]
  norm_num [pageTracksInfo, exAlbumPage, pyInt]

/-- C7 witness: the three tracks are numbered 1-3 in listing order, titles
in the listing's own order. -/
theorem C7_witness :
    exAlbumResult.tracks.map (fun t => t.track_number) =
      [some 1, some 2, some 3] ∧
    exAlbumResult.tracks.map (fun t => t.title) =
      ["Song One", "Song Two", "Song Three"] := by
  have h : apiGetAlbum "artist-x/album-y" none (some exAlbumPage) =
      some exAlbumResult := rfl
  have hc := C7_track_numbering "artist-x/album-y" none exAlbumPage
    exAlbumResult h
  constructor
  · rw [hc.1]
    decide
  · rw [hc.2]
    decide

/-- C10 witness: the first assembled track carries the album's id, title,
artist and image. -/
theorem C10_witness :
    (exAlbumResult.tracks.headD junkTrack).album_id =
      some exAlbumResult.album_id ∧
    (exAlbumResult.tracks.headD junkTrack).album_title =
      some exAlbumResult.title ∧
    (exAlbumResult.tracks.headD junkTrack).artist_name =
      exAlbumResult.artist_name ∧
    (exAlbumResult.tracks.headD junkTrack).artist_id =
      exAlbumResult.artist_id ∧
    (exAlbumResult.tracks.headD junkTrack).image_url =
      some "https://img.example/cover.jpg" := by
  have h : apiGetAlbum "artist-x/album-y" none (some exAlbumPage) =
      some exAlbumResult := rfl
  have hmem : exAlbumResult.tracks.headD junkTrack ∈ exAlbumResult.tracks := by
    exact List.mem_cons_self _ _
  have hc := C10_track_album_crossrefs "artist-x/album-y" none exAlbumPage
    exAlbumResult h (exAlbumResult.tracks.headD junkTrack) hmem
  exact ⟨hc.1, hc.2.1, hc.2.2.1, hc.2.2.2.1,
    hc.2.2.2.2 "https://img.example/cover.jpg" rfl⟩

/-! ## Claim C8: search -/

/-- Two track result rows for a concrete search page. -/
def exSearchItems : List HSearchItem :=
  [⟨some "t", some "Song A", some "https://x.bandcamp.com/track/a"⟩,
    ⟨some "t", some "Song B", some "https://x.bandcamp.com/track/b"⟩]

/-- C8 evidence: helpers' `search` — the implementation the provider's
`search(query, media_types, limit)` delegates to — applies no limit of any
kind: over a page with two track rows and only tracks requested it returns
both rows (and nothing of the unrequested kinds), regardless of any caller
cap.  (The provider passes a third `limit` argument that
`BandcampAPI.search` does not even accept.) -/
theorem C8_no_limit_applied :
    helpersSearch exSearchItems [MediaType.track] =
      .ok ⟨[], [],
        [("Song A", "https://x.bandcamp.com/track/a"),
          ("Song B", "https://x.bandcamp.com/track/b")]⟩ := rfl

end Bandcamp
